import Mathlib

/-!
Verification of the Debian-installer build pipeline
(`package/src/linux/installer.ts`, function `makeInstallerDeb`).

The TypeScript source is shallowly embedded below.  Strings are Lean
`String`s; filesystem trees are modelled as partial maps from relative
component paths (`List String`) to file contents; the results of the two
external commands (`dpkg-architecture`, `dpkg-deb`) are supplied by an
environment value; the sequencing of the pipeline (including its abort
points) is an explicit `Except`-style control flow that returns the final
filesystem state, the trace of external command invocations, and either
the produced package name or the error that aborted the build.
-/

namespace Installer

/-- Relative filesystem path, as a list of path components. -/
abbrev Path : Type := List String

/-- Contents of a directory tree: a partial map from relative paths to the
text contents of the regular file found there (`none` = no file). -/
abbrev FileTree : Type := Path → Option String

/-- Captured result of an external command: exit status code plus captured
standard output and standard error (the shape of `ExecProcessResult`
returned by `runCmd`). -/
structure CmdResult where
  code : Nat
  stdout : String
  stderr : String

/-- Modelled from the spec: `runCmd` lives in `package/src/util/cmd.ts`,
which is not part of the sources under verification (only its caller
`installer.ts` is).  Per spec section 7, failures of external commands are
"unrecoverable, propagated immediately, aborting the remainder of the
pipeline", and per section 9 the pipeline is "sequential `await`-style
external command invocation with immediate abort on failure".  So `runCmd`
returns the captured result on a zero exit status and propagates a failure
otherwise. -/
def runCmd (r : CmdResult) : Except String CmdResult :=
  if r.code = 0 then Except.ok r else Except.error "Command execution failed."

/-- Whitespace set of the JavaScript `String.prototype.trim` (the
characters relevant to command output). -/
def isJsWhitespace (c : Char) : Bool :=
  c = ' ' || c = '\t' || c = '\n' || c = '\r' || c = '\x0b' || c = '\x0c'

/-- JavaScript `String.prototype.trim`: drop leading and trailing
whitespace. -/
def jsTrim (s : String) : String :=
  ⟨((s.data.dropWhile isJsWhitespace).reverse.dropWhile isJsWhitespace).reverse⟩

/-- JavaScript `String.prototype.toLowerCase` (ASCII range, which is all
the pipeline relies on). -/
def toLowerCase (s : String) : String :=
  ⟨s.data.map Char.toLower⟩

/-- Entry produced by the `walk` of the distribution tree: its path, the
kind flag used by the filter (`entry.isFile` is false for directories and
symbolic links), and the byte size reported by `Deno.stat`. -/
structure WalkEntry where
  path : Path
  isFile : Bool
  size : Nat

/-- The `Configuration` consumed by `makeInstallerDeb`.  The directory
paths of `directoryInfo` enter the model as the output-directory path
string together with the contents read from each source directory: the
binary tree (`directoryInfo.bin`), the share tree (`directoryInfo.share`),
the walk of the distribution tree (`directoryInfo.dist`), and the contents
of `join(directoryInfo.pkg, "scripts", "linux", "deb")`. -/
structure Configuration where
  productName : String
  version : String
  out : String
  binTree : FileTree
  shareTree : FileTree
  distWalk : List WalkEntry
  scriptsDebTree : FileTree

/-- Environment: the external world's response to each command
invocation. -/
structure Env where
  run : String → List String → CmdResult

/-- State of the `working` directory under the output directory: whether
it exists, and the files beneath it. -/
structure WorkingDir where
  present : Bool
  tree : FileTree

/-- Filesystem state touched by the pipeline: the `working` directory and
which archive files exist directly in the output directory. -/
structure FsState where
  working : WorkingDir
  outArchives : String → Bool

/-- Result of a run of `makeInstallerDeb`: final filesystem state, trace
of external commands invoked (name and argument list, in order), and the
produced package file name or the error that aborted the build. -/
structure BuildTrace where
  fs : FsState
  cmds : List (String × List String)
  result : Except String String

/-- Path `join` as used on the output directory (simple segments, no
normalization needed). -/
def join (a b : String) : String := a ++ "/" ++ b

/-- Lines 21-27 of installer.ts: run `dpkg-architecture -qDEB_BUILD_ARCH`,
take the trimmed standard output on a zero exit status, and fail when the
architecture is falsy (absent or the empty string). -/
def detectArchitecture (r : CmdResult) : Except String String :=
  match runCmd r with
  | Except.error e => Except.error e
  | Except.ok result =>
    let architecture := if result.code = 0 then some (jsTrim result.stdout) else none
    match architecture with
    | none => Except.error "Undetectable architecture. Packaging failed."
    | some a =>
      if a = "" then Except.error "Undetectable architecture. Packaging failed."
      else Except.ok a

/-- Lines 28-29: the package file name.  Note the literal `quarto-`
product component in the template string. -/
def packageName (configuration : Configuration) (architecture : String) : String :=
  "quarto-" ++ configuration.version ++ "-linux-" ++ architecture ++ ".deb"

/-- Line 33: the working directory under the output directory. -/
def workingDirPath (configuration : Configuration) : String :=
  join configuration.out "working"

/-- Strip a leading component sequence from a path, returning the
remainder when the path lies below the given prefix directory. -/
def stripPre : Path → Path → Option Path
  | [], p => some p
  | _ :: _, [] => none
  | a :: pre, b :: p => if a = b then stripPre pre p else none

/-- Deno `copySync(src, dst, { overwrite: true })` on directory trees:
every file of `src` appears under `dst`, overwriting what was there;
files of the destination tree outside `dst` (or not shadowed by `src`)
are kept. -/
def copySync (src : FileTree) (dst : Path) (t : FileTree) : FileTree :=
  fun p =>
    match stripPre dst p with
    | some q =>
      match src q with
      | some c => some c
      | none => t p
    | none => t p

/-- Deno `ensureDirSync`: the directory exists afterwards. -/
def ensureDirSync (w : WorkingDir) : WorkingDir :=
  { w with present := true }

/-- Deno `emptyDirSync`: all contents of the directory are removed,
whatever they were. -/
def emptyDirSync (_t : FileTree) : FileTree := fun _ => none

/-- Destination of the binary tree copy:
`opt/<lowercased productName>/bin` (lines 38-43). -/
def binPath (configuration : Configuration) : Path :=
  ["opt", toLowerCase configuration.productName, "bin"]

/-- Destination of the share tree copy:
`opt/<lowercased productName>/share` (lines 49-54). -/
def sharePath (configuration : Configuration) : Path :=
  ["opt", toLowerCase configuration.productName, "share"]

/-- Lines 33-59: prepare the working directory (`ensureDirSync` then
`emptyDirSync`) and copy the bin and share trees into place. -/
def stageWorkingDir (configuration : Configuration) (w : WorkingDir) : WorkingDir :=
  let w := ensureDirSync w
  let t := emptyDirSync w.tree
  let t := copySync configuration.binTree (binPath configuration) t
  let t := copySync configuration.shareTree (sharePath configuration) t
  { present := true, tree := t }

/-- Lines 66-71: sizes pushed while walking the distribution tree — one
entry per walk entry with `entry.isFile` true. -/
def fileSizes (entries : List WalkEntry) : List Nat :=
  (entries.filter (fun e => e.isFile)).map (fun e => e.size)

/-- Lines 72-74: `Array.prototype.reduce` with no initial value, summing.
On an empty array, JavaScript throws
`TypeError: Reduce of empty array with no initial value`. -/
def reduceAdd : List Nat → Except String Nat
  | [] => Except.error "TypeError: Reduce of empty array with no initial value"
  | x :: xs => Except.ok (xs.foldl (fun accum target => accum + target) x)

/-- Line 82: `Math.round(size / 1024)`.  For the natural sizes involved
the division by `1024` is exact in binary floating point and `Math.round`
rounds half-up, which on naturals is `(size + 512) / 1024` with truncating
division. -/
def installedSize (size : Nat) : Nat := (size + 512) / 1024

/-- Lines 61-63: one control-file line, `name: value` newline-terminated. -/
def val (name value : String) : String := name ++ ": " ++ value ++ "\n"

/-- Line 75: the project URL constant. -/
def url : String := "https://github.com/quarto-dev/quarto-cli"

/-- Lines 77-91: the control file text, built by sequential
concatenation of the nine `val` lines. -/
def controlFile (configuration : Configuration) (architecture : String) (size : Nat) : String :=
  let control := ""
  let control := control ++ val "Package" configuration.productName
  let control := control ++ val "Version" configuration.version
  let control := control ++ val "Architecture" architecture
  let control := control ++ val "Installed-Size" (installedSize size).repr
  let control := control ++ val "Section" "user/text"
  let control := control ++ val "Priority" "optional"
  let control := control ++ val "Maintainer" "RStudio, PBC <quarto@rstudio.org>"
  let control := control ++ val "Homepage" url
  let control := control ++
    val "Description"
      "Quarto is an academic, scientific, and technical publishing system built on Pandoc."
  control

/-- Deno `Deno.writeTextFileSync`: the file at the path now holds the
text; everything else is unchanged. -/
def writeTextFileSync (p : Path) (content : String) (t : FileTree) : FileTree :=
  fun q => if q = p then some content else t q

/-- Lines 102-112: the copyright file lines. -/
def copyrightLines : List String :=
  [ "Format: https://www.debian.org/doc/packaging-manuals/copyright-format/1.0/",
    "Upstream-Name: Quarto",
    "Source: " ++ url,
    "",
    "Files: *",
    "Copyright: RStudio, PBC.",
    "License: GPL-2+" ]

/-- Line 113: `copyrightLines.join("\n")`. -/
def copyrightText : String := String.intercalate "\n" copyrightLines

/-- Lines 93-122: create the `DEBIAN` directory inside the working
directory, write the control file, write the copyright file, then copy
the install scripts from `scripts/linux/deb` over it with overwrite. -/
def writeDebianDir (configuration : Configuration) (control : String) (t : FileTree) : FileTree :=
  let t := writeTextFileSync ["DEBIAN", "control"] control t
  let t := writeTextFileSync ["DEBIAN", "copyright"] copyrightText t
  copySync configuration.scriptsDebTree ["DEBIAN"] t

/-- Lines 124-132: the argument list handed to `dpkg-deb`. -/
def dpkgDebArgs (configuration : Configuration) (architecture : String) : List String :=
  [ "-Z", "gzip", "-z", "9", "--build",
    workingDirPath configuration,
    join configuration.out (packageName configuration architecture) ]

/-- The whole of `makeInstallerDeb` (lines 15-137), sequencing the steps
above.  A successful `dpkg-deb` run deposits the archive, named by
`packageName`, directly in the output directory; the commented-out
`Deno.removeSync` at lines 134-136 performs no action, so the working
directory is left in place. -/
def makeInstallerDeb (configuration : Configuration) (env : Env) (fs : FsState) : BuildTrace :=
  let archCall : String × List String := ("dpkg-architecture", ["-qDEB_BUILD_ARCH"])
  match detectArchitecture (env.run "dpkg-architecture" ["-qDEB_BUILD_ARCH"]) with
  | Except.error e => ⟨fs, [archCall], Except.error e⟩
  | Except.ok architecture =>
    let name := packageName configuration architecture
    let w := stageWorkingDir configuration fs.working
    match reduceAdd (fileSizes configuration.distWalk) with
    | Except.error e => ⟨{ fs with working := w }, [archCall], Except.error e⟩
    | Except.ok size =>
      let control := controlFile configuration architecture size
      let w : WorkingDir := ⟨true, writeDebianDir configuration control w.tree⟩
      let debArgs := dpkgDebArgs configuration architecture
      let debCall : String × List String := ("dpkg-deb", debArgs)
      match runCmd (env.run "dpkg-deb" debArgs) with
      | Except.error e => ⟨{ fs with working := w }, [archCall, debCall], Except.error e⟩
      | Except.ok _ =>
        ⟨⟨w, fun n => if n = name then true else fs.outArchives n⟩,
         [archCall, debCall], Except.ok name⟩

/-! Specification-side observation helpers (used only to state properties,
never part of the embedded code). -/

/-- The text of one control line as the spec describes it: field name,
then the separator, then the value. -/
def lineOf (name value : String) : List Char :=
  name.data ++ ": ".data ++ value.data

/-- Decompose a character list at newline characters (the line structure
of a text blob): splitting a text that ends in a newline yields its lines
followed by one empty remainder. -/
def splitLines : List Char → List (List Char)
  | [] => [[]]
  | c :: rest =>
    if c = '\n' then [] :: splitLines rest
    else
      match splitLines rest with
      | [] => [[c]]
      | l :: ls => (c :: l) :: ls

/-- Join lines, terminating each with a newline. -/
def joinLines (ls : List (List Char)) : List Char :=
  ls.foldr (fun l acc => l ++ '\n' :: acc) []

/-- Spec-side characterization of the staged working tree: the bin tree
below `opt/<name>/bin`, the share tree below `opt/<name>/share`, nothing
anywhere else. -/
def stagedLookup (configuration : Configuration) (p : Path) : Option String :=
  match stripPre (binPath configuration) p with
  | some q => configuration.binTree q
  | none =>
    match stripPre (sharePath configuration) p with
    | some q => configuration.shareTree q
    | none => none

/-- The archive name as the spec words it:
`<productName>-<version>-linux-<architecture>.deb`. -/
def specArchiveName (configuration : Configuration) (architecture : String) : String :=
  configuration.productName ++ "-" ++ configuration.version ++ "-linux-" ++
    architecture ++ ".deb"

/-! Concrete inputs used by counterexamples and witnesses. -/

/-- The configuration of the spec's section 8 scenario: productName
`Sample`, version `1.2.0`, output directory `/tmp/out`, one regular file
of 204800 bytes in the distribution tree. -/
def sampleConfiguration : Configuration where
  productName := "Sample"
  version := "1.2.0"
  out := "/tmp/out"
  binTree := fun p => if p = ["app"] then some "binary" else none
  shareTree := fun p => if p = ["doc.txt"] then some "docs" else none
  distWalk := [⟨[], false, 0⟩, ⟨["payload.bin"], true, 204800⟩]
  scriptsDebTree := fun p => if p = ["postinst"] then some "#!/bin/sh" else none

/-- An environment in which both external commands succeed and the
architecture detection prints `amd64`. -/
def sampleEnv : Env where
  run := fun c _ =>
    if c = "dpkg-architecture" then ⟨0, "amd64\n", ""⟩ else ⟨0, "", ""⟩

/-- An initial filesystem state: no working directory, no archives. -/
def emptyFs : FsState where
  working := ⟨false, fun _ => none⟩
  outArchives := fun _ => false

/-- The sample configuration with a distribution tree holding no regular
file at all (the walk still yields the root directory entry). -/
def emptyDistConfiguration : Configuration :=
  { sampleConfiguration with distWalk := [⟨[], false, 0⟩] }

/-- The sample configuration with a packaging-scripts directory that
itself ships files named `control` and `copyright`. -/
def scriptsConfiguration : Configuration :=
  { sampleConfiguration with
    scriptsDebTree := fun p =>
      if p = ["control"] then some "Package: override"
      else if p = ["copyright"] then some "copyright override"
      else none }

/-- An environment whose architecture-detection command exits with
status 1. -/
def failEnv : Env where
  run := fun _ _ => ⟨1, "", ""⟩

/-- An environment where architecture detection succeeds but the
archive-build command exits with status 2. -/
def debFailEnv : Env where
  run := fun c _ =>
    if c = "dpkg-architecture" then ⟨0, "amd64\n", ""⟩ else ⟨2, "", "dpkg-deb: error"⟩

/-- Decidable equality on `Except`, for evaluating concrete runs of the
pipeline. -/
instance {ε α : Type} [DecidableEq ε] [DecidableEq α] : DecidableEq (Except ε α)
  | Except.ok a, Except.ok b =>
    if h : a = b then isTrue (by rw [h]) else isFalse (by intro hh; cases hh; exact h rfl)
  | Except.error a, Except.error b =>
    if h : a = b then isTrue (by rw [h]) else isFalse (by intro hh; cases hh; exact h rfl)
  | Except.ok _, Except.error _ => isFalse (by intro hh; cases hh)
  | Except.error _, Except.ok _ => isFalse (by intro hh; cases hh)

/-! Lemmas about the line structure of generated text. -/

theorem data_append (s t : String) : (s ++ t).data = s.data ++ t.data := rfl

theorem lf_data : ("\n").data = ['\n'] := rfl

theorem splitLines_append_newline (a rest : List Char) (h : '\n' ∉ a) :
    splitLines (a ++ '\n' :: rest) = a :: splitLines rest := by
  induction a with
  | nil => simp [splitLines]
  | cons c cs ih =>
    have hc : ¬ c = '\n' := by
      intro hc
      exact h (by simp [hc])
    have hcs : '\n' ∉ cs := by
      intro hm
      exact h (by simp [hm])
    simp [splitLines, hc, ih hcs]

theorem splitLines_joinLines (ls : List (List Char)) (h : ∀ l ∈ ls, '\n' ∉ l) :
    splitLines (joinLines ls) = ls ++ [[]] := by
  induction ls with
  | nil => simp [joinLines, splitLines]
  | cons l ls ih =>
    have hl : '\n' ∉ l := h l (List.mem_cons_self l ls)
    have hls : ∀ x ∈ ls, '\n' ∉ x := fun x hx => h x (List.mem_cons_of_mem _ hx)
    have e : joinLines (l :: ls) = l ++ '\n' :: joinLines ls := rfl
    rw [e, splitLines_append_newline l _ hl, ih hls]
    simp

theorem digitChar_ne_newline (m : Nat) : Nat.digitChar m ≠ '\n' := by
  by_cases h0 : m = 0
  · subst h0; decide
  by_cases h1 : m = 1
  · subst h1; decide
  by_cases h2 : m = 2
  · subst h2; decide
  by_cases h3 : m = 3
  · subst h3; decide
  by_cases h4 : m = 4
  · subst h4; decide
  by_cases h5 : m = 5
  · subst h5; decide
  by_cases h6 : m = 6
  · subst h6; decide
  by_cases h7 : m = 7
  · subst h7; decide
  by_cases h8 : m = 8
  · subst h8; decide
  by_cases h9 : m = 9
  · subst h9; decide
  by_cases h10 : m = 10
  · subst h10; decide
  by_cases h11 : m = 11
  · subst h11; decide
  by_cases h12 : m = 12
  · subst h12; decide
  by_cases h13 : m = 13
  · subst h13; decide
  by_cases h14 : m = 14
  · subst h14; decide
  by_cases h15 : m = 15
  · subst h15; decide
  unfold Nat.digitChar
  rw [if_neg h0, if_neg h1, if_neg h2, if_neg h3, if_neg h4, if_neg h5, if_neg h6,
      if_neg h7, if_neg h8, if_neg h9, if_neg h10, if_neg h11, if_neg h12, if_neg h13,
      if_neg h14, if_neg h15]
  decide

theorem toDigitsCore_mem (b : Nat) :
    ∀ (f n : Nat) (ds : List Char) (c : Char),
      c ∈ Nat.toDigitsCore b f n ds → c ∈ ds ∨ ∃ m, c = Nat.digitChar m := by
  intro f
  induction f with
  | zero =>
    intro n ds c h
    exact Or.inl h
  | succ f ih =>
    intro n ds c h
    unfold Nat.toDigitsCore at h
    by_cases hz : n / b = 0
    · simp only [hz, if_pos rfl] at h
      rcases List.mem_cons.mp h with h | h
      · exact Or.inr ⟨n % b, h⟩
      · exact Or.inl h
    · simp only [if_neg hz] at h
      rcases ih (n / b) (Nat.digitChar (n % b) :: ds) c h with h | h
      · rcases List.mem_cons.mp h with h | h
        · exact Or.inr ⟨n % b, h⟩
        · exact Or.inl h
      · exact Or.inr h

theorem repr_no_newline (n : Nat) : '\n' ∉ n.repr.data := by
  intro h
  have e : n.repr.data = Nat.toDigits 10 n := rfl
  rw [e] at h
  unfold Nat.toDigits at h
  rcases toDigitsCore_mem 10 (n + 1) n [] '\n' h with h | ⟨m, hm⟩
  · exact List.not_mem_nil _ h
  · exact digitChar_ne_newline m hm.symm

theorem nil_data : ("").data = [] := rfl

/-- The characters of the generated control file are exactly the nine
`Name: value` lines, each terminated by one newline. -/
theorem controlFile_data (cfg : Configuration) (architecture : String) (size : Nat) :
    (controlFile cfg architecture size).data =
      joinLines
        [ lineOf "Package" cfg.productName,
          lineOf "Version" cfg.version,
          lineOf "Architecture" architecture,
          lineOf "Installed-Size" (installedSize size).repr,
          lineOf "Section" "user/text",
          lineOf "Priority" "optional",
          lineOf "Maintainer" "RStudio, PBC <quarto@rstudio.org>",
          lineOf "Homepage" url,
          lineOf "Description" "Quarto is an academic, scientific, and technical publishing system built on Pandoc." ] := by
  simp [controlFile, val, joinLines, lineOf, data_append, lf_data, nil_data,
    List.append_assoc]

/-- Splitting the generated control file at newlines yields the nine
lines in their fixed order, plus the empty remainder left by the
terminating newline of the last line. -/
theorem controlFile_splitLines (cfg : Configuration) (architecture : String) (size : Nat)
    (h1 : '\n' ∉ cfg.productName.data) (h2 : '\n' ∉ cfg.version.data)
    (h3 : '\n' ∉ architecture.data) :
    splitLines (controlFile cfg architecture size).data =
      [ lineOf "Package" cfg.productName,
        lineOf "Version" cfg.version,
        lineOf "Architecture" architecture,
        lineOf "Installed-Size" (installedSize size).repr,
        lineOf "Section" "user/text",
        lineOf "Priority" "optional",
        lineOf "Maintainer" "RStudio, PBC <quarto@rstudio.org>",
        lineOf "Homepage" url,
        lineOf "Description" "Quarto is an academic, scientific, and technical publishing system built on Pandoc.",
        [] ] := by
  rw [controlFile_data, splitLines_joinLines]
  · simp
  · intro l hl
    simp only [List.mem_cons, List.not_mem_nil, or_false] at hl
    rcases hl with rfl | rfl | rfl | rfl | rfl | rfl | rfl | rfl | rfl <;>
      simp +decide [lineOf, h1, h2, h3, repr_no_newline]

/-! Arithmetic of the installed-size value, path-stripping lemmas, and
reductions of the individual pipeline steps. -/

/-- `Math.round(size / 1024)` is exactly rounding to the nearest integer
with ties going up (Mathlib's `round` on `ℚ` rounds half-up). -/
theorem installedSize_eq_round (size : Nat) :
    (installedSize size : ℤ) = round ((size : ℚ) / 1024) := by
  have hx : (size : ℚ) / 1024 + 1 / 2 = ((size + 512 : ℕ) : ℚ) / ((1024 : ℕ) : ℚ) := by
    push_cast
    ring
  rw [round_eq, hx, ← Int.natCast_floor_eq_floor (by positivity), Nat.floor_div_eq_div]
  rfl

theorem stripPre_append (pre p : Path) : stripPre pre (pre ++ p) = some p := by
  induction pre with
  | nil => rfl
  | cons a pre ih => simp [stripPre, ih]

theorem stripPre_three (a b c : String) (p : Path) :
    stripPre [a, b, c] p =
      (match p with
      | x :: y :: z :: q => if a = x ∧ b = y ∧ c = z then some q else none
      | _ => none) := by
  match p with
  | [] => rfl
  | [x] => simp [stripPre]
  | [x, y] => simp [stripPre]
  | x :: y :: z :: q => simp [stripPre, ite_and]

theorem detectArchitecture_ok (r : CmdResult) (a : String)
    (hc : r.code = 0) (ht : jsTrim r.stdout = a) (ha : a ≠ "") :
    detectArchitecture r = Except.ok a := by
  simp [detectArchitecture, runCmd, hc, ht, ha]

theorem detectArchitecture_error (r : CmdResult)
    (h : r.code ≠ 0 ∨ jsTrim r.stdout = "") :
    ∃ e, detectArchitecture r = Except.error e := by
  rcases h with h | h
  · exact ⟨"Command execution failed.", by simp [detectArchitecture, runCmd, h]⟩
  · by_cases hc : r.code = 0
    · exact ⟨"Undetectable architecture. Packaging failed.",
        by simp [detectArchitecture, runCmd, hc, h]⟩
    · exact ⟨"Command execution failed.", by simp [detectArchitecture, runCmd, hc]⟩

theorem foldl_add_eq_sum (x : Nat) (xs : List Nat) :
    xs.foldl (fun accum target => accum + target) x = x + xs.sum := by
  induction xs generalizing x with
  | nil => simp
  | cons y ys ih => simp [ih, List.sum_cons]; omega

/-- The `reduce` over a non-empty size list is the plain sum. -/
theorem reduceAdd_ok (sizes : List Nat) (h : sizes ≠ []) :
    reduceAdd sizes = Except.ok sizes.sum := by
  match sizes with
  | [] => exact absurd rfl h
  | x :: xs => simp [reduceAdd, foldl_add_eq_sum, List.sum_cons]

theorem stripPre3_nil (a b c : String) : stripPre [a, b, c] [] = none := rfl

theorem stripPre3_one (a b c x : String) : stripPre [a, b, c] [x] = none := by
  simp [stripPre]

theorem stripPre3_two (a b c x y : String) : stripPre [a, b, c] [x, y] = none := by
  simp [stripPre]

theorem stripPre3_cons (a b c x y z : String) (q : Path) :
    stripPre [a, b, c] (x :: y :: z :: q) =
      if a = x ∧ b = y ∧ c = z then some q else none := by
  simp [stripPre, ite_and]

/-- The tree left by the staging step is exactly `stagedLookup`: the bin
tree under `opt/<name>/bin`, the share tree under `opt/<name>/share`, and
nothing else — independent of the tree found in the working directory
beforehand. -/
theorem stage_tree_eq (cfg : Configuration) (w : WorkingDir) (p : Path) :
    (stageWorkingDir cfg w).tree p = stagedLookup cfg p := by
  have e : (stageWorkingDir cfg w).tree =
      copySync cfg.shareTree (sharePath cfg)
        (copySync cfg.binTree (binPath cfg) (fun _ => none)) := rfl
  rw [e]
  rcases p with _ | ⟨x, p⟩
  · simp [copySync, stagedLookup, binPath, sharePath, stripPre3_nil]
  rcases p with _ | ⟨y, p⟩
  · simp [copySync, stagedLookup, binPath, sharePath, stripPre3_one]
  rcases p with _ | ⟨z, q⟩
  · simp [copySync, stagedLookup, binPath, sharePath, stripPre3_two]
  by_cases hb : "opt" = x ∧ toLowerCase cfg.productName = y ∧ "bin" = z
  · have hs : ¬ ("opt" = x ∧ toLowerCase cfg.productName = y ∧ "share" = z) := by
      rintro ⟨-, -, h3⟩
      exact absurd (hb.2.2.trans h3.symm) (by decide)
    simp only [copySync, stagedLookup, binPath, sharePath, stripPre3_cons,
      if_pos hb, if_neg hs]
    cases hbt : cfg.binTree q <;> simp [hbt]
  · by_cases hs : "opt" = x ∧ toLowerCase cfg.productName = y ∧ "share" = z
    · simp only [copySync, stagedLookup, binPath, sharePath, stripPre3_cons,
        if_pos hs, if_neg hb]
      cases hst : cfg.shareTree q <;> simp [hst]
    · simp only [copySync, stagedLookup, binPath, sharePath, stripPre3_cons,
        if_neg hs, if_neg hb]

/-- Once architecture detection has succeeded and the distribution walk
found at least one regular file, the rest of the pipeline reduces to the
staging, metadata and archive steps, with only the `dpkg-deb` result left
open. -/
theorem makeInstallerDeb_final (cfg : Configuration) (env : Env) (fs : FsState) (arch : String)
    (h1 : detectArchitecture (env.run "dpkg-architecture" ["-qDEB_BUILD_ARCH"]) = Except.ok arch)
    (h2 : fileSizes cfg.distWalk ≠ []) :
    makeInstallerDeb cfg env fs =
      (let size := (fileSizes cfg.distWalk).sum
      let w : WorkingDir :=
        ⟨true, writeDebianDir cfg (controlFile cfg arch size) (stageWorkingDir cfg fs.working).tree⟩
      let debCall : String × List String := ("dpkg-deb", dpkgDebArgs cfg arch)
      match runCmd (env.run "dpkg-deb" (dpkgDebArgs cfg arch)) with
      | Except.error e =>
        ⟨{ fs with working := w },
          [("dpkg-architecture", ["-qDEB_BUILD_ARCH"]), debCall], Except.error e⟩
      | Except.ok _ =>
        ⟨⟨w, fun n => if n = packageName cfg arch then true else fs.outArchives n⟩,
          [("dpkg-architecture", ["-qDEB_BUILD_ARCH"]), debCall],
          Except.ok (packageName cfg arch)⟩) := by
  simp only [makeInstallerDeb, h1, reduceAdd_ok _ h2]

/-! Claims. -/

/-- C1, counterexample: the claim says the archive is named
`<productName>-<version>-linux-<architecture>.deb`, so `Sample-1.2.0-linux-amd64.deb`
for the sample configuration; the pipeline instead produces
`quarto-1.2.0-linux-amd64.deb` — the first component of the template at
lines 28-29 is the literal string `quarto`, not the configured product
name. -/
theorem c1_name_counterexample :
    (makeInstallerDeb sampleConfiguration sampleEnv emptyFs).result
        = Except.ok "quarto-1.2.0-linux-amd64.deb" ∧
    specArchiveName sampleConfiguration "amd64" = "Sample-1.2.0-linux-amd64.deb" ∧
    "quarto-1.2.0-linux-amd64.deb" ≠ "Sample-1.2.0-linux-amd64.deb" :=
  ⟨by decide, by decide, by decide⟩

/-- C1, amended: for every build configuration and detected architecture,
the archive produced by the pipeline is named
`quarto-<version>-linux-<architecture>.deb` — the leading component is the
literal `quarto`, independent of `productName` — and it is placed
directly in the configured output directory (the destination argument of
the archive command is the output directory joined with that name). -/
theorem c1_archive_name (cfg : Configuration) (env : Env) (fs : FsState) (arch : String)
    (h1 : detectArchitecture (env.run "dpkg-architecture" ["-qDEB_BUILD_ARCH"]) = Except.ok arch)
    (h2 : fileSizes cfg.distWalk ≠ [])
    (h3 : (env.run "dpkg-deb" (dpkgDebArgs cfg arch)).code = 0) :
    (makeInstallerDeb cfg env fs).result = Except.ok (packageName cfg arch) ∧
    packageName cfg arch = "quarto-" ++ cfg.version ++ "-linux-" ++ arch ++ ".deb" ∧
    (makeInstallerDeb cfg env fs).fs.outArchives (packageName cfg arch) = true ∧
    dpkgDebArgs cfg arch =
      ["-Z", "gzip", "-z", "9", "--build", workingDirPath cfg,
        cfg.out ++ "/" ++ packageName cfg arch] := by
  have hr : runCmd (env.run "dpkg-deb" (dpkgDebArgs cfg arch))
      = Except.ok (env.run "dpkg-deb" (dpkgDebArgs cfg arch)) := by
    simp [runCmd, h3]
  rw [makeInstallerDeb_final cfg env fs arch h1 h2, hr]
  exact ⟨rfl, rfl, by simp, rfl⟩

/-- C1, witness: the amended naming theorem applied to the sample
configuration, version `1.2.0`, architecture `amd64`. -/
theorem c1_archive_name_witness :
    detectArchitecture (sampleEnv.run "dpkg-architecture" ["-qDEB_BUILD_ARCH"])
        = Except.ok "amd64" ∧
    fileSizes sampleConfiguration.distWalk ≠ [] ∧
    (sampleEnv.run "dpkg-deb" (dpkgDebArgs sampleConfiguration "amd64")).code = 0 ∧
    ((makeInstallerDeb sampleConfiguration sampleEnv emptyFs).result
        = Except.ok (packageName sampleConfiguration "amd64") ∧
      packageName sampleConfiguration "amd64"
        = "quarto-" ++ sampleConfiguration.version ++ "-linux-" ++ "amd64" ++ ".deb" ∧
      (makeInstallerDeb sampleConfiguration sampleEnv emptyFs).fs.outArchives
        (packageName sampleConfiguration "amd64") = true ∧
      dpkgDebArgs sampleConfiguration "amd64" =
        ["-Z", "gzip", "-z", "9", "--build", workingDirPath sampleConfiguration,
          sampleConfiguration.out ++ "/" ++ packageName sampleConfiguration "amd64"]) :=
  ⟨by decide, by decide, by decide,
    c1_archive_name sampleConfiguration sampleEnv emptyFs "amd64"
      (by decide) (by decide) (by decide)⟩

/-- C2: the claim says a distribution tree with zero regular files yields
sum 0 and `Installed-Size: 0`; instead the `reduce` at lines 72-74 is
called with no initial value, so on the empty size list it raises
`TypeError: Reduce of empty array with no initial value` and the build
aborts — evaluated here on a configuration whose distribution walk holds
only the root directory entry. -/
theorem c2_empty_dist_tree_aborts :
    fileSizes emptyDistConfiguration.distWalk = [] ∧
    reduceAdd (fileSizes emptyDistConfiguration.distWalk) =
      Except.error "TypeError: Reduce of empty array with no initial value" ∧
    (makeInstallerDeb emptyDistConfiguration sampleEnv emptyFs).result =
      Except.error "TypeError: Reduce of empty array with no initial value" :=
  ⟨by decide, by decide, by decide⟩

/-- C3: if the architecture-detection command exits non-zero, or its
trimmed standard output is empty, the pipeline aborts with an error
having invoked no other external command and having left the filesystem
untouched — in particular the `working` directory is not created and no
archive appears in the output directory. -/
theorem c3_arch_failure_aborts (cfg : Configuration) (env : Env) (fs : FsState)
    (h : (env.run "dpkg-architecture" ["-qDEB_BUILD_ARCH"]).code ≠ 0 ∨
         jsTrim (env.run "dpkg-architecture" ["-qDEB_BUILD_ARCH"]).stdout = "") :
    (makeInstallerDeb cfg env fs).fs = fs ∧
    (makeInstallerDeb cfg env fs).cmds = [("dpkg-architecture", ["-qDEB_BUILD_ARCH"])] ∧
    ∃ e, (makeInstallerDeb cfg env fs).result = Except.error e := by
  obtain ⟨e, he⟩ := detectArchitecture_error _ h
  unfold makeInstallerDeb
  rw [he]
  exact ⟨rfl, rfl, e, rfl⟩

/-- C3, witness: the abort theorem applied to an environment whose
detection command exits with status 1, starting from a state with no
working directory. -/
theorem c3_arch_failure_aborts_witness :
    ((failEnv.run "dpkg-architecture" ["-qDEB_BUILD_ARCH"]).code ≠ 0 ∨
      jsTrim (failEnv.run "dpkg-architecture" ["-qDEB_BUILD_ARCH"]).stdout = "") ∧
    ((makeInstallerDeb sampleConfiguration failEnv emptyFs).fs = emptyFs ∧
      (makeInstallerDeb sampleConfiguration failEnv emptyFs).cmds
        = [("dpkg-architecture", ["-qDEB_BUILD_ARCH"])] ∧
      ∃ e, (makeInstallerDeb sampleConfiguration failEnv emptyFs).result = Except.error e) :=
  ⟨Or.inl (by decide),
    c3_arch_failure_aborts sampleConfiguration failEnv emptyFs (Or.inl (by decide))⟩

/-- C4: whenever the walk of the distribution tree found at least one
regular file, the computed total is the sum of the byte sizes of exactly
the regular-file entries (directories and symbolic links have
`entry.isFile` false and are excluded), the Installed-Size value is
`round(total / 1024)` with half-up rounding, and that value is what the
fourth control-file line carries. -/
theorem c4_installed_size (cfg : Configuration) (arch : String)
    (h : fileSizes cfg.distWalk ≠ [])
    (h1 : '\n' ∉ cfg.productName.data) (h2 : '\n' ∉ cfg.version.data)
    (h3 : '\n' ∉ arch.data) :
    ∃ total,
      reduceAdd (fileSizes cfg.distWalk) = Except.ok total ∧
      total = ((cfg.distWalk.filter (fun e => e.isFile)).map (fun e => e.size)).sum ∧
      (installedSize total : ℤ) = round ((total : ℚ) / 1024) ∧
      (splitLines (controlFile cfg arch total).data)[3]? =
        some (lineOf "Installed-Size" (installedSize total).repr) := by
  refine ⟨(fileSizes cfg.distWalk).sum, reduceAdd_ok _ h, rfl, installedSize_eq_round _, ?_⟩
  rw [controlFile_splitLines cfg arch _ h1 h2 h3]
  rfl

/-- C4, witness: the size theorem on the sample configuration — a
distribution tree totalling 204800 bytes, whose Installed-Size is 200. -/
theorem c4_installed_size_witness :
    fileSizes sampleConfiguration.distWalk ≠ [] ∧
    installedSize 204800 = 200 ∧
    (∃ total,
      reduceAdd (fileSizes sampleConfiguration.distWalk) = Except.ok total ∧
      total = ((sampleConfiguration.distWalk.filter (fun e => e.isFile)).map
        (fun e => e.size)).sum ∧
      (installedSize total : ℤ) = round ((total : ℚ) / 1024) ∧
      (splitLines (controlFile sampleConfiguration "amd64" total).data)[3]? =
        some (lineOf "Installed-Size" (installedSize total).repr)) :=
  ⟨by decide, by decide,
    c4_installed_size sampleConfiguration "amd64" (by decide) (by decide) (by decide) (by decide)⟩

/-- C5: for every configuration whose interpolated values carry no
embedded newline, the generated control file splits at newlines into
exactly the nine lines Package, Version, Architecture, Installed-Size,
Section, Priority, Maintainer, Homepage, Description in that order, each
of the form `Name: value`; the trailing empty remainder witnesses that
every line, the last included, is newline-terminated. -/
theorem c5_control_file_nine_lines (cfg : Configuration) (architecture : String) (size : Nat)
    (h1 : '\n' ∉ cfg.productName.data) (h2 : '\n' ∉ cfg.version.data)
    (h3 : '\n' ∉ architecture.data) :
    splitLines (controlFile cfg architecture size).data =
      [ lineOf "Package" cfg.productName,
        lineOf "Version" cfg.version,
        lineOf "Architecture" architecture,
        lineOf "Installed-Size" (installedSize size).repr,
        lineOf "Section" "user/text",
        lineOf "Priority" "optional",
        lineOf "Maintainer" "RStudio, PBC <quarto@rstudio.org>",
        lineOf "Homepage" url,
        lineOf "Description" "Quarto is an academic, scientific, and technical publishing system built on Pandoc.",
        [] ] :=
  controlFile_splitLines cfg architecture size h1 h2 h3

/-- C5, witness: the nine-line theorem on the sample configuration at
architecture `amd64` and total size 204800. -/
theorem c5_control_file_nine_lines_witness :
    '\n' ∉ ("Sample").data ∧ '\n' ∉ ("1.2.0").data ∧ '\n' ∉ ("amd64").data ∧
    splitLines (controlFile sampleConfiguration "amd64" 204800).data =
      [ lineOf "Package" sampleConfiguration.productName,
        lineOf "Version" sampleConfiguration.version,
        lineOf "Architecture" "amd64",
        lineOf "Installed-Size" (installedSize 204800).repr,
        lineOf "Section" "user/text",
        lineOf "Priority" "optional",
        lineOf "Maintainer" "RStudio, PBC <quarto@rstudio.org>",
        lineOf "Homepage" url,
        lineOf "Description" "Quarto is an academic, scientific, and technical publishing system built on Pandoc.",
        [] ] :=
  ⟨by decide, by decide, by decide,
    c5_control_file_nine_lines sampleConfiguration "amd64" 204800
      (by decide) (by decide) (by decide)⟩

/-- C6: staging is idempotent — whatever the prior state of the working
directory, the result of the staging step is the same working directory
(pre-existing files are cleared by `emptyDirSync`, not merged), it
exists, and its contents are exactly the binary tree below
`opt/<lowercased productName>/bin` and the share tree below
`opt/<lowercased productName>/share` and nothing else (`stagedLookup`). -/
theorem c6_staging_idempotent (cfg : Configuration) (w1 w2 : WorkingDir) :
    stageWorkingDir cfg w1 = stageWorkingDir cfg w2 ∧
    (stageWorkingDir cfg w1).present = true ∧
    (∀ q, (stageWorkingDir cfg w1).tree (binPath cfg ++ q) = cfg.binTree q) ∧
    (∀ q, (stageWorkingDir cfg w1).tree (sharePath cfg ++ q) = cfg.shareTree q) ∧
    ∀ p, (stageWorkingDir cfg w1).tree p = stagedLookup cfg p := by
  refine ⟨rfl, rfl, ?_, ?_, stage_tree_eq cfg w1⟩
  · intro q
    rw [stage_tree_eq]
    simp +decide [stagedLookup, binPath, sharePath, stripPre3_cons]
  · intro q
    rw [stage_tree_eq]
    simp +decide [stagedLookup, binPath, sharePath, stripPre3_cons]

/-- C7: in every build that reaches the final step, the archive command
is invoked exactly once, after the detection command, with its arguments
in the fixed order compression-format flag (`-Z gzip`), compression-level
flag (`-z 9`, the maximum), the build-action flag (`--build`), the
working-directory path, and the destination archive path. -/
theorem c7_dpkg_deb_invocation (cfg : Configuration) (env : Env) (fs : FsState) (arch : String)
    (h1 : detectArchitecture (env.run "dpkg-architecture" ["-qDEB_BUILD_ARCH"]) = Except.ok arch)
    (h2 : fileSizes cfg.distWalk ≠ []) :
    (makeInstallerDeb cfg env fs).cmds =
      [ ("dpkg-architecture", ["-qDEB_BUILD_ARCH"]),
        ("dpkg-deb",
          ["-Z", "gzip"] ++ ["-z", "9"] ++ ["--build"] ++
            [workingDirPath cfg] ++ [join cfg.out (packageName cfg arch)]) ] := by
  rw [makeInstallerDeb_final cfg env fs arch h1 h2]
  cases runCmd (env.run "dpkg-deb" (dpkgDebArgs cfg arch)) <;> rfl

/-- C7, witness: the invocation theorem on the sample configuration. -/
theorem c7_dpkg_deb_invocation_witness :
    detectArchitecture (sampleEnv.run "dpkg-architecture" ["-qDEB_BUILD_ARCH"])
        = Except.ok "amd64" ∧
    fileSizes sampleConfiguration.distWalk ≠ [] ∧
    (makeInstallerDeb sampleConfiguration sampleEnv emptyFs).cmds =
      [ ("dpkg-architecture", ["-qDEB_BUILD_ARCH"]),
        ("dpkg-deb",
          ["-Z", "gzip"] ++ ["-z", "9"] ++ ["--build"] ++
            [workingDirPath sampleConfiguration] ++
            [join sampleConfiguration.out (packageName sampleConfiguration "amd64")]) ] :=
  ⟨by decide, by decide,
    c7_dpkg_deb_invocation sampleConfiguration sampleEnv emptyFs "amd64" (by decide) (by decide)⟩

/-- C8: whenever the archive-build command exits with a non-zero status,
the build fails — the pipeline reports an error instead of completing
successfully. -/
theorem c8_dpkg_deb_failure_fatal (cfg : Configuration) (env : Env) (fs : FsState) (arch : String)
    (h1 : detectArchitecture (env.run "dpkg-architecture" ["-qDEB_BUILD_ARCH"]) = Except.ok arch)
    (h2 : fileSizes cfg.distWalk ≠ [])
    (h3 : (env.run "dpkg-deb" (dpkgDebArgs cfg arch)).code ≠ 0) :
    ∃ e, (makeInstallerDeb cfg env fs).result = Except.error e := by
  have hr : runCmd (env.run "dpkg-deb" (dpkgDebArgs cfg arch))
      = Except.error "Command execution failed." := by
    simp [runCmd, h3]
  rw [makeInstallerDeb_final cfg env fs arch h1 h2, hr]
  exact ⟨"Command execution failed.", rfl⟩

/-- C8, witness: the fatal-failure theorem on an environment whose
archive command exits with status 2. -/
theorem c8_dpkg_deb_failure_fatal_witness :
    detectArchitecture (debFailEnv.run "dpkg-architecture" ["-qDEB_BUILD_ARCH"])
        = Except.ok "amd64" ∧
    fileSizes sampleConfiguration.distWalk ≠ [] ∧
    (debFailEnv.run "dpkg-deb" (dpkgDebArgs sampleConfiguration "amd64")).code ≠ 0 ∧
    ∃ e, (makeInstallerDeb sampleConfiguration debFailEnv emptyFs).result = Except.error e :=
  ⟨by decide, by decide, by decide,
    c8_dpkg_deb_failure_fatal sampleConfiguration debFailEnv emptyFs "amd64"
      (by decide) (by decide) (by decide)⟩

/-- C9: the maintainer-script copy runs last, into the same `DEBIAN`
directory with overwrite enabled, so a packaging-scripts directory that
contains a file named `control` (respectively `copyright`) leaves that
script file's content, not the generated metadata, at `DEBIAN/control`
(respectively `DEBIAN/copyright`). -/
theorem c9_scripts_overwrite_metadata (cfg : Configuration) (control : String) (t : FileTree) :
    (∀ c, cfg.scriptsDebTree ["control"] = some c →
      writeDebianDir cfg control t ["DEBIAN", "control"] = some c) ∧
    (∀ d, cfg.scriptsDebTree ["copyright"] = some d →
      writeDebianDir cfg control t ["DEBIAN", "copyright"] = some d) := by
  constructor <;> intro x hx <;>
    simp [writeDebianDir, copySync, writeTextFileSync, stripPre, hx]

/-- C9, witness: a scripts directory shipping its own `control` and
`copyright` files wins over the generated metadata. -/
theorem c9_scripts_overwrite_metadata_witness :
    scriptsConfiguration.scriptsDebTree ["control"] = some "Package: override" ∧
    scriptsConfiguration.scriptsDebTree ["copyright"] = some "copyright override" ∧
    writeDebianDir scriptsConfiguration "generated control text" (fun _ => none)
      ["DEBIAN", "control"] = some "Package: override" ∧
    writeDebianDir scriptsConfiguration "generated control text" (fun _ => none)
      ["DEBIAN", "copyright"] = some "copyright override" :=
  ⟨by decide, by decide,
    (c9_scripts_overwrite_metadata scriptsConfiguration "generated control text"
      (fun _ => none)).1 "Package: override" (by decide),
    (c9_scripts_overwrite_metadata scriptsConfiguration "generated control text"
      (fun _ => none)).2 "copyright override" (by decide)⟩

/-- C10: after every successful build the working directory is still
present with its fully staged contents (staged trees plus `DEBIAN`
metadata) — nothing in the pipeline deletes it, the removal at lines
134-136 being commented out. -/
theorem c10_working_dir_retained (cfg : Configuration) (env : Env) (fs : FsState) (arch : String)
    (h1 : detectArchitecture (env.run "dpkg-architecture" ["-qDEB_BUILD_ARCH"]) = Except.ok arch)
    (h2 : fileSizes cfg.distWalk ≠ [])
    (h3 : (env.run "dpkg-deb" (dpkgDebArgs cfg arch)).code = 0) :
    (makeInstallerDeb cfg env fs).result = Except.ok (packageName cfg arch) ∧
    (makeInstallerDeb cfg env fs).fs.working.present = true ∧
    (makeInstallerDeb cfg env fs).fs.working.tree =
      writeDebianDir cfg (controlFile cfg arch (fileSizes cfg.distWalk).sum)
        (stageWorkingDir cfg fs.working).tree := by
  have hr : runCmd (env.run "dpkg-deb" (dpkgDebArgs cfg arch))
      = Except.ok (env.run "dpkg-deb" (dpkgDebArgs cfg arch)) := by
    simp [runCmd, h3]
  rw [makeInstallerDeb_final cfg env fs arch h1 h2, hr]
  exact ⟨rfl, rfl, rfl⟩

/-- C10, witness: the retention theorem on the sample configuration. -/
theorem c10_working_dir_retained_witness :
    detectArchitecture (sampleEnv.run "dpkg-architecture" ["-qDEB_BUILD_ARCH"])
        = Except.ok "amd64" ∧
    fileSizes sampleConfiguration.distWalk ≠ [] ∧
    (sampleEnv.run "dpkg-deb" (dpkgDebArgs sampleConfiguration "amd64")).code = 0 ∧
    ((makeInstallerDeb sampleConfiguration sampleEnv emptyFs).result
        = Except.ok (packageName sampleConfiguration "amd64") ∧
      (makeInstallerDeb sampleConfiguration sampleEnv emptyFs).fs.working.present = true ∧
      (makeInstallerDeb sampleConfiguration sampleEnv emptyFs).fs.working.tree =
        writeDebianDir sampleConfiguration
          (controlFile sampleConfiguration "amd64" (fileSizes sampleConfiguration.distWalk).sum)
          (stageWorkingDir sampleConfiguration emptyFs.working).tree) :=
  ⟨by decide, by decide, by decide,
    c10_working_dir_retained sampleConfiguration sampleEnv emptyFs "amd64"
      (by decide) (by decide) (by decide)⟩

end Installer
